import Mathlib

/-!
Shallow embedding of the numerical core of the Portfolio_OPT_Engine
repository (src/metrics.py, src/optimizer.py, src/monte_carlo.py,
src/rebalancer.py), together with theorems settling the frozen claims
about it.

Numeric conventions: the Python code computes with IEEE floats.  The
embedding idealises finite float arithmetic by exact rationals (ℚ); the
special float values produced by the code (NaN, ±inf) and the values
involving a square root are represented exactly and symbolically by the
`FloatVal` codomain below.  The Monte Carlo simulator, whose draws are
arbitrary real numbers, is embedded over ℝ.
-/

-- Batteries marks the `Rat` field operations `@[irreducible]`; the kernel
-- ignores reducibility, and re-marking them semireducible lets `decide`
-- evaluate concrete rational arithmetic during elaboration as well.
attribute [local semireducible] Rat.add Rat.mul Rat.sub Rat.inv

instance instDecEqExcept {ε α : Type} [DecidableEq ε] [DecidableEq α] :
    DecidableEq (Except ε α) := fun a b =>
  match a, b with
  | .ok x, .ok y => if h : x = y then .isTrue (by rw [h]) else .isFalse (by simp [h])
  | .error x, .error y => if h : x = y then .isTrue (by rw [h]) else .isFalse (by simp [h])
  | .ok _, .error _ => .isFalse (by simp)
  | .error _, .ok _ => .isFalse (by simp)

namespace PortfolioOpt

/-- Python's `str.lower`, lower-casing character by character.  (This
is extensionally `String.toLower`; it is spelled through `List.map` so
that concrete strings reduce during kernel evaluation.) -/
def pyLower (s : String) : String := ⟨s.data.map Char.toLower⟩

/-- Exact model of the float values produced by the metric functions.
`fin q` is the finite value `q`; `ofSqrt v` denotes `√v` (used for a
volatility, with `v > 0`); `ofSqrtQuot num v` denotes `num / √v` (a
ratio whose denominator is a positive volatility); `nan`, `posInf`,
`negInf` are the IEEE specials. -/
inductive FloatVal where
  | nan : FloatVal
  | posInf : FloatVal
  | negInf : FloatVal
  | fin : ℚ → FloatVal
  | ofSqrt : ℚ → FloatVal
  | ofSqrtQuot : ℚ → ℚ → FloatVal
  deriving DecidableEq, Repr

/-- Dot product of two equal-length vectors, `np.dot` / elementwise
product followed by `np.sum`. -/
def dotQ (a b : List ℚ) : ℚ := (List.zipWith (· * ·) a b).sum

/-- Matrix–vector product `np.dot(M, v)` for a row-major matrix. -/
def matVecQ (m : List (List ℚ)) (v : List ℚ) : List ℚ := m.map (dotQ v)

/-- Arithmetic mean of a list, `np.mean` / `pandas.Series.mean`
(the empty list maps to `0` under ℚ division by zero; the source gives
NaN there, a case that is unreachable in every theorem below). -/
def meanQ (xs : List ℚ) : ℚ := xs.sum / xs.length

namespace PortfolioMetrics

/-- Embeds `PortfolioMetrics.portfolio_return`: `np.sum(weights * mean_returns)`. -/
def portfolio_return (weights mean_returns : List ℚ) : ℚ :=
  dotQ weights mean_returns

/-- The quadratic form `np.dot(weights.T, np.dot(cov_matrix, weights))`
inside `PortfolioMetrics.portfolio_volatility`. -/
def portfolio_variance (weights : List ℚ) (cov_matrix : List (List ℚ)) : ℚ :=
  dotQ weights (matVecQ cov_matrix weights)

/-- Embeds `PortfolioMetrics.portfolio_volatility`: `np.sqrt` of the quadratic
form.  `np.sqrt` of a negative argument is NaN, of `0` is `0`, and of a
positive `v` is `√v` (represented symbolically). -/
def portfolio_volatility (weights : List ℚ) (cov_matrix : List (List ℚ)) : FloatVal :=
  let v := portfolio_variance weights cov_matrix
  if v < 0 then .nan else if v = 0 then .fin 0 else .ofSqrt v

/-- Embeds `PortfolioMetrics.sharpe_ratio`: the source divides
`(portfolio_ret - risk_free_rate) / portfolio_vol` unconditionally.
The branches spell out the IEEE semantics of that single division:
volatility NaN (negative variance) gives NaN; volatility `0` gives
`0/0 = NaN` or `±inf` according to the numerator's sign; a positive
volatility `√v` gives the finite ratio `num / √v`. -/
def sharpe_ratio (weights mean_returns : List ℚ) (cov_matrix : List (List ℚ))
    (risk_free_rate : ℚ) : FloatVal :=
  let num := portfolio_return weights mean_returns - risk_free_rate
  let v := portfolio_variance weights cov_matrix
  if v < 0 then .nan
  else if v = 0 then
    if num = 0 then .nan else if 0 < num then .posInf else .negInf
  else .ofSqrtQuot num v

/-- Embeds `PortfolioMetrics.calculate_portfolio_returns`:
`(returns * weights).sum(axis=1)`, one weighted return per period. -/
def calculate_portfolio_returns (weights : List ℚ) (returns : List (List ℚ)) : List ℚ :=
  returns.map (fun row => dotQ row weights)

/-- Sample variance with `ddof = 1`, the square of `pandas.Series.std`
for a series of at least two points. -/
def sampleVariance (xs : List ℚ) : ℚ :=
  ((xs.map (fun x => (x - meanQ xs) ^ 2)).sum) / ((xs.length : ℚ) - 1)

/-- Embeds `PortfolioMetrics.sortino_ratio`.  The source computes
`downside_std = downside_returns.std() * np.sqrt(252)`, returns
`np.inf` when `downside_std == 0`, and otherwise divides.  For fewer
than two downside points `pandas` `std` (with its default `ddof = 1`)
is NaN, the `== 0` guard is false, and the division by NaN yields NaN.
Otherwise `downside_std = √(252 * v)` with `v` the sample variance:
zero variance hits the guard, positive variance gives the finite ratio. -/
def sortino_ratio (weights mean_returns : List ℚ) (returns : List (List ℚ))
    (risk_free_rate : ℚ) : FloatVal :=
  let portfolio_ret := portfolio_return weights mean_returns
  let portfolio_returns := calculate_portfolio_returns weights returns
  let downside_returns := portfolio_returns.filter (fun x => x < 0)
  if downside_returns.length < 2 then .nan
  else
    let v := sampleVariance downside_returns
    if v = 0 then .posInf
    else .ofSqrtQuot (portfolio_ret - risk_free_rate) (252 * v)

/-- Embeds `np.percentile(xs, q)` with the default linear interpolation:
with `s` the ascending sort of `xs` and `pos = q/100 * (len - 1)`,
the result is `s[⌊pos⌋] + (pos - ⌊pos⌋) * (s[⌊pos⌋ + 1] - s[⌊pos⌋])`
(the upper index falls out when `pos` is integral, which is the only
case in which it can be out of range for `0 ≤ q ≤ 100`). -/
def percentile (xs : List ℚ) (q : ℚ) : ℚ :=
  let s := xs.insertionSort (· ≤ ·)
  let pos := q / 100 * ((xs.length : ℚ) - 1)
  let i := (⌊pos⌋).toNat
  let frac := pos - ⌊pos⌋
  let a := s.getD i 0
  let b := s.getD (i + 1) a
  a + frac * (b - a)

/-- Embeds `PortfolioMetrics.value_at_risk`: `np.percentile` of the realized
weighted-return series at `(1 - confidence_level) * 100`. -/
def value_at_risk (weights : List ℚ) (returns : List (List ℚ))
    (confidence_level : ℚ) : ℚ :=
  percentile (calculate_portfolio_returns weights returns)
    ((1 - confidence_level) * 100)

/-- Embeds `PortfolioMetrics.conditional_value_at_risk`: the mean of the
realized weighted returns that are `≤` the VaR threshold. -/
def conditional_value_at_risk (weights : List ℚ) (returns : List (List ℚ))
    (confidence_level : ℚ) : ℚ :=
  let portfolio_returns := calculate_portfolio_returns weights returns
  let var := value_at_risk weights returns confidence_level
  meanQ (portfolio_returns.filter (fun x => x ≤ var))

end PortfolioMetrics

/-- Output of a metrics dictionary attached to every optimizer result:
`Expected Return`, `Volatility`, `Sharpe Ratio` computed at the solution
point (src/optimizer.py, the `metrics = {...}` blocks). -/
structure Metrics where
  expectedReturn : ℚ
  volatility : FloatVal
  sharpeRatio : FloatVal
  deriving DecidableEq, Repr

namespace PortfolioOptimizer

/-- The state of a `PortfolioOptimizer` instance: mean returns,
covariance matrix and risk-free rate fixed at construction. -/
structure Instance where
  mean_returns : List ℚ
  cov_matrix : List (List ℚ)
  risk_free_rate : ℚ
  deriving DecidableEq, Repr

/-- Embeds `self.n_assets = len(mean_returns)`. -/
def Instance.n_assets (inst : Instance) : ℕ := inst.mean_returns.length

/-- The objective function handed to `scipy.optimize.minimize` by each
of the four solver-based optimizers. -/
inductive ObjectiveFn where
  | negSharpe
  | portfolioVol
  | negReturn
  | riskParity
  deriving DecidableEq, Repr

/-- What `scipy.optimize.minimize` returns: the final iterate
`result.x` and the convergence flag `result.success`. -/
structure SolverResult where
  x : List ℚ
  success : Bool
  deriving DecidableEq, Repr

/-- The data each optimizer computes and hands to
`scipy.optimize.minimize`: the objective, the initial guess `x0` and
the per-asset box bounds.  (The sum-to-one equality constraint is the
same for every call and the solver itself is external, so it is left
implicit in the abstract solver.) -/
structure SolverInput where
  objective : ObjectiveFn
  x0 : List ℚ
  bounds : List (ℚ × ℚ)
  deriving DecidableEq, Repr

/-- The external SLSQP solver, abstracted as a function. -/
def Solver : Type := SolverInput → SolverResult

/-- Embeds `PortfolioOptimizer._get_bounds`. -/
def get_bounds (inst : Instance) (allow_short : Bool) (min_weight max_weight : ℚ) :
    List (ℚ × ℚ) :=
  if allow_short then List.replicate inst.n_assets (-1, 1)
  else List.replicate inst.n_assets (min_weight, max_weight)

/-- The initial guess computed identically in all four solver-based
optimizers (src/optimizer.py lines 86–92): equal weights if the bounds
make that infeasible, else `max(min_weight, 1/N)` per asset,
renormalized to sum to one. -/
def initial_guess (inst : Instance) (min_weight : ℚ) : List ℚ :=
  if min_weight * inst.n_assets > 1 then
    List.replicate inst.n_assets (1 / (inst.n_assets : ℚ))
  else
    let x0 := List.replicate inst.n_assets (max min_weight (1 / (inst.n_assets : ℚ)))
    x0.map (fun v => v / x0.sum)

/-- The metrics dictionary computed at a weight vector (identical block
in every optimizer). -/
def metricsAt (inst : Instance) (weights : List ℚ) : Metrics where
  expectedReturn := PortfolioMetrics.portfolio_return weights inst.mean_returns
  volatility := PortfolioMetrics.portfolio_volatility weights inst.cov_matrix
  sharpeRatio := PortfolioMetrics.sharpe_ratio weights inst.mean_returns
    inst.cov_matrix inst.risk_free_rate

/-- Embeds `PortfolioOptimizer.optimize_max_sharpe`: run the solver on the
negated Sharpe objective and return `result.x` with its metrics — the
solver's `success` flag is read nowhere. -/
def optimize_max_sharpe (inst : Instance) (solver : Solver)
    (allow_short : Bool) (min_weight max_weight : ℚ) : List ℚ × Metrics :=
  let result := solver ⟨.negSharpe, initial_guess inst min_weight,
    get_bounds inst allow_short min_weight max_weight⟩
  (result.x, metricsAt inst result.x)

/-- Embeds `PortfolioOptimizer.optimize_min_volatility`. -/
def optimize_min_volatility (inst : Instance) (solver : Solver)
    (allow_short : Bool) (min_weight max_weight : ℚ) : List ℚ × Metrics :=
  let result := solver ⟨.portfolioVol, initial_guess inst min_weight,
    get_bounds inst allow_short min_weight max_weight⟩
  (result.x, metricsAt inst result.x)

set_option linter.unusedVariables false in
/-- Embeds `PortfolioOptimizer.optimize_max_return` (the optional volatility
cap only adds an inequality constraint for the external solver). -/
def optimize_max_return (inst : Instance) (solver : Solver)
    (target_volatility : Option ℚ) (allow_short : Bool)
    (min_weight max_weight : ℚ) : List ℚ × Metrics :=
  let result := solver ⟨.negReturn, initial_guess inst min_weight,
    get_bounds inst allow_short min_weight max_weight⟩
  (result.x, metricsAt inst result.x)

/-- Embeds `PortfolioOptimizer.optimize_risk_parity` (always `allow_short = false`). -/
def optimize_risk_parity (inst : Instance) (solver : Solver)
    (min_weight max_weight : ℚ) : List ℚ × Metrics :=
  let result := solver ⟨.riskParity, initial_guess inst min_weight,
    get_bounds inst false min_weight max_weight⟩
  (result.x, metricsAt inst result.x)

/-- Embeds `PortfolioOptimizer.optimize_equal_weight`: the closed form
`[1/N] * N`; no solver argument appears. -/
def optimize_equal_weight (inst : Instance) : List ℚ × Metrics :=
  let weights := List.replicate inst.n_assets (1 / (inst.n_assets : ℚ))
  (weights, metricsAt inst weights)

/-- Embeds `PortfolioOptimizer.optimize`: lower-case the objective string,
dispatch on the five recognized names (with the Python default keyword
arguments), and raise `ValueError` otherwise.  Note the source rebinds
`objective = objective.lower()` first, so the error message carries the
lower-cased string. -/
def optimize (inst : Instance) (solver : Solver) (objective : String) :
    Except String (List ℚ × Metrics) :=
  let o := pyLower objective
  if o = "max_sharpe" then .ok (optimize_max_sharpe inst solver false 0 1)
  else if o = "min_volatility" then .ok (optimize_min_volatility inst solver false 0 1)
  else if o = "max_return" then .ok (optimize_max_return inst solver none false 0 1)
  else if o = "risk_parity" then .ok (optimize_risk_parity inst solver 0 1)
  else if o = "equal_weight" then .ok (optimize_equal_weight inst)
  else .error ("Unknown objective: " ++ o)

end PortfolioOptimizer

/-- Whether an `Except` is `.ok`, as a boolean (a successful return versus a raised
exception). -/
def isOkE {ε α : Type} : Except ε α → Bool
  | .ok _ => true
  | .error _ => false

namespace MonteCarloSimulator

/-- The state of a `MonteCarloSimulator` instance. -/
structure Config where
  mean_returns : List ℝ
  cov_matrix : List (List ℝ)

/-- Dot product over ℝ. -/
noncomputable def dotR (a b : List ℝ) : ℝ := (List.zipWith (· * ·) a b).sum

/-- Embeds `portfolio_return = np.dot(weights, self.mean_returns)`. -/
noncomputable def portfolio_return (c : Config) (weights : List ℝ) : ℝ :=
  dotR weights c.mean_returns

/-- Embeds `portfolio_variance = np.dot(weights.T, np.dot(self.cov_matrix, weights))`. -/
noncomputable def portfolio_variance (c : Config) (weights : List ℝ) : ℝ :=
  dotR weights (c.cov_matrix.map (dotR weights))

/-- Embeds `portfolio_std = np.sqrt(portfolio_variance)`. -/
noncomputable def portfolio_std (c : Config) (weights : List ℝ) : ℝ :=
  Real.sqrt (portfolio_variance c weights)

/-- The running value of one trial after `year` years.  The draw
`np.random.normal(portfolio_return, portfolio_std)` for a given year is
modelled as `mu + sigma * z year` where `z` is the trial's stream of
standard-normal draws; the update is
`value = value * (1 + annual_return) + annual_contribution`. -/
noncomputable def pathValue (mu sigma init contrib : ℝ) (z : ℕ → ℝ) : ℕ → ℝ
  | 0 => init
  | year + 1 => pathValue mu sigma init contrib z year
      * (1 + (mu + sigma * z (year + 1))) + contrib

/-- The parts of the `simulate_portfolio` result dictionary the claims
are about: the per-trial final values and the
`n_simulations × (time_horizon_years + 1)` path matrix (row `sim`,
column `year`; column 0 is the initial investment).  The percentile /
VaR / probability-of-loss aggregates derived from `final_values` are
not needed by any claim and are omitted. -/
structure SimResult where
  final_values : List ℝ
  paths : List (List ℝ)

/-- Embeds `MonteCarloSimulator.simulate_portfolio` (the simulation loop,
src/monte_carlo.py lines 45–66), with the random source made explicit:
`g sim` is trial `sim`'s stream of standard-normal draws. -/
noncomputable def simulate_portfolio (c : Config) (weights : List ℝ)
    (initial_investment : ℝ) (time_horizon_years n_simulations : ℕ)
    (annual_contribution : ℝ) (g : ℕ → ℕ → ℝ) : SimResult :=
  let mu := portfolio_return c weights
  let sigma := portfolio_std c weights
  { final_values := (List.range n_simulations).map fun sim =>
      pathValue mu sigma initial_investment annual_contribution (g sim)
        time_horizon_years
    paths := (List.range n_simulations).map fun sim =>
      (List.range (time_horizon_years + 1)).map
        (pathValue mu sigma initial_investment annual_contribution (g sim)) }

end MonteCarloSimulator

namespace PortfolioRebalancer

/-- The immutable configuration of a `PortfolioRebalancer`: target
weights and drift threshold (tickers carry no numeric content). -/
structure Config where
  target_weights : List ℚ
  drift_threshold : ℚ
  deriving DecidableEq, Repr

/-- Embeds `PortfolioRebalancer.calculate_current_weights`: divide by the
total value, raising `ValueError` when the total is zero. -/
def calculate_current_weights (current_values : List ℚ) : Except String (List ℚ) :=
  if current_values.sum = 0 then .error "Total portfolio value is zero"
  else .ok (current_values.map (fun v => v / current_values.sum))

/-- Embeds `PortfolioRebalancer.check_drift`: the per-asset absolute drift
vector `np.abs(current_weights - target_weights)` and
`np.any(weight_diff > drift_threshold)`. -/
def check_drift (c : Config) (current_weights : List ℚ) : Bool × List ℚ :=
  let weight_diff := List.zipWith (fun cw t => |cw - t|) current_weights c.target_weights
  (weight_diff.any (fun d => d > c.drift_threshold), weight_diff)

end PortfolioRebalancer

end PortfolioOpt

namespace PortfolioOpt

/-- The ascending sort of the realized weighted-return series, used to
state order-statistic facts about `value_at_risk` (`np.percentile`
sorts the data ascending). -/
def sortedPortfolioReturns (weights : List ℚ) (returns : List (List ℚ)) : List ℚ :=
  (PortfolioMetrics.calculate_portfolio_returns weights returns).insertionSort (· ≤ ·)

/-- A 100-period single-asset return series with values 1, 2, …, 100. -/
def uniformSeries : List (List ℚ) := (List.range 100).map (fun k => [(k : ℚ) + 1])

/-- A concrete four-asset optimizer instance (identity covariance,
2% risk-free rate). -/
def inst4 : PortfolioOptimizer.Instance :=
  ⟨[1/10, 3/50, 2/25, 1/20],
   [[1, 0, 0, 0], [0, 1, 0, 0], [0, 0, 1, 0], [0, 0, 0, 1]], 1/50⟩

/-- A single-asset optimizer instance. -/
def inst1 : PortfolioOptimizer.Instance := ⟨[1/10], [[1/25]], 1/50⟩

/-- C1: the claim says the zero-volatility case of `sharpe_ratio` is
explicitly handled and yields the +∞ sentinel, never NaN.  The code has
no such branch: at weights `[1]`, mean returns `[1/50]`, covariance
`[[0]]` and risk-free rate `1/50` the portfolio volatility is exactly
`0`, the numerator is `0`, and the unguarded division produces NaN
(`0.0/0.0`), contradicting the claim (and the spec's error policy that
its sibling functions `sortino_ratio` and `calmar_ratio` do implement). -/
theorem C1_sharpe_zero_volatility_nan :
    PortfolioMetrics.portfolio_volatility [1] [[0]] = .fin 0 ∧
    PortfolioMetrics.sharpe_ratio [1] [1/50] [[0]] (1/50) = .nan := by
  decide

/-- C2 counterexample: the optimizer's returned `(weights, metrics)`
pair is identical whether the solver reports `success = true` or
`success = false` on the same final iterate, so the result carries no
convergence flag and a caller cannot distinguish a converged optimum
from a degraded one — refuting the claim's second conjunct at a
concrete instance. -/
theorem C2_counterexample_results_indistinguishable :
    PortfolioOptimizer.optimize_max_sharpe inst1 (fun _ => ⟨[1], false⟩) false 0 1 =
      PortfolioOptimizer.optimize_max_sharpe inst1 (fun _ => ⟨[1], true⟩) false 0 1 ∧
    (false : Bool) ≠ true := by
  exact ⟨rfl, by decide⟩

/-- C2 (amended): every solver-based optimizer returns the solver's
final iterate `result.x` unconditionally — the best iterate, not a hard
failure — together with metrics evaluated there, and the output does
not depend on the solver's `success` flag (no convergence flag is
carried in the result). -/
theorem C2_best_iterate_no_flag :
    ∀ (inst : PortfolioOptimizer.Instance) (x : List ℚ) (b : Bool)
      (allow_short : Bool) (minw maxw : ℚ) (tv : Option ℚ),
      PortfolioOptimizer.optimize_max_sharpe inst (fun _ => ⟨x, b⟩) allow_short minw maxw =
        (x, PortfolioOptimizer.metricsAt inst x) ∧
      PortfolioOptimizer.optimize_min_volatility inst (fun _ => ⟨x, b⟩) allow_short minw maxw =
        (x, PortfolioOptimizer.metricsAt inst x) ∧
      PortfolioOptimizer.optimize_max_return inst (fun _ => ⟨x, b⟩) tv allow_short minw maxw =
        (x, PortfolioOptimizer.metricsAt inst x) ∧
      PortfolioOptimizer.optimize_risk_parity inst (fun _ => ⟨x, b⟩) minw maxw =
        (x, PortfolioOptimizer.metricsAt inst x) :=
  fun _ _ _ _ _ _ _ => ⟨rfl, rfl, rfl, rfl⟩

/-- C4: the claim says `sortino_ratio` returns the +∞ sentinel when the
portfolio return series has no negative values.  In the code the
downside subset is then empty, `pandas` `std()` of an empty series is
NaN (ddof = 1), the `== 0` guard does not fire, and the division by NaN
returns NaN — evaluated here at the all-positive series
`[[1/100], [1/50]]` with weights `[1]`. -/
theorem C4_sortino_all_positive_nan :
    (PortfolioMetrics.calculate_portfolio_returns [1] [[1/100], [1/50]]).filter
        (fun x => x < 0) = [] ∧
    PortfolioMetrics.sortino_ratio [1] [1/100] [[1/100], [1/50]] (1/50) = .nan := by
  decide

/-- C6: when the portfolio mean return and the portfolio standard
deviation are both 0 and the annual contribution is 0, every per-trial
final value equals the initial investment exactly (the final-value
array is `initial_investment` replicated), whatever the random stream
`g` supplies — the degenerate case is deterministic. -/
theorem C6_degenerate_simulation_deterministic :
    ∀ (c : MonteCarloSimulator.Config) (w : List ℝ) (init : ℝ)
      (years nsim : ℕ) (g : ℕ → ℕ → ℝ),
      MonteCarloSimulator.portfolio_return c w = 0 →
      MonteCarloSimulator.portfolio_std c w = 0 →
      (MonteCarloSimulator.simulate_portfolio c w init years nsim 0 g).final_values =
        List.replicate nsim init := by
  intro c w init years nsim g hret hstd
  have hval : ∀ (z : ℕ → ℝ) (y : ℕ),
      MonteCarloSimulator.pathValue 0 0 init 0 z y = init := by
    intro z y
    induction y with
    | zero => rfl
    | succ n ih => simp [MonteCarloSimulator.pathValue, ih]
  simp only [MonteCarloSimulator.simulate_portfolio, hret, hstd]
  calc (List.range nsim).map (fun sim =>
          MonteCarloSimulator.pathValue 0 0 init 0 (g sim) years)
      = (List.range nsim).map (fun _ => init) := by
        exact List.map_congr_left (fun sim _ => hval (g sim) years)
    _ = List.replicate nsim init := by
        simp [List.map_const', List.length_range]

/-- C6 witness: a concrete zero-mean zero-variance single-asset
simulation (100 trials over 5 years from 1000 with a nonzero random
stream) in which every final value is exactly 1000. -/
theorem C6_degenerate_simulation_deterministic_witness :
    MonteCarloSimulator.portfolio_return ⟨[0], [[0]]⟩ [1] = 0 ∧
    MonteCarloSimulator.portfolio_std ⟨[0], [[0]]⟩ [1] = 0 ∧
    (MonteCarloSimulator.simulate_portfolio ⟨[0], [[0]]⟩ [1] 1000 5 100 0
        (fun i j => (i : ℝ) + j)).final_values = List.replicate 100 1000 := by
  have hret : MonteCarloSimulator.portfolio_return ⟨[0], [[0]]⟩ [1] = 0 := by
    simp [MonteCarloSimulator.portfolio_return, MonteCarloSimulator.dotR]
  have hstd : MonteCarloSimulator.portfolio_std ⟨[0], [[0]]⟩ [1] = 0 := by
    simp [MonteCarloSimulator.portfolio_std, MonteCarloSimulator.portfolio_variance,
      MonteCarloSimulator.dotR]
  exact ⟨hret, hstd,
    C6_degenerate_simulation_deterministic ⟨[0], [[0]]⟩ [1] 1000 5 100
      (fun i j => (i : ℝ) + j) hret hstd⟩

/-- C8: the EqualWeight objective is the closed form `1/N` in every
component; with four assets it is exactly `[1/4, 1/4, 1/4, 1/4]`; and
through the dispatcher the `equal_weight` result is independent of the
solver (no solver is invoked on that path). -/
theorem C8_equal_weight_closed_form :
    ∀ (inst : PortfolioOptimizer.Instance),
      (∀ i : ℕ, i < inst.n_assets →
        (PortfolioOptimizer.optimize_equal_weight inst).1.getD i 0 =
          1 / (inst.n_assets : ℚ)) ∧
      (inst.n_assets = 4 →
        (PortfolioOptimizer.optimize_equal_weight inst).1 = [1/4, 1/4, 1/4, 1/4]) ∧
      ∀ s₁ s₂ : PortfolioOptimizer.Solver,
        PortfolioOptimizer.optimize inst s₁ "equal_weight" =
          PortfolioOptimizer.optimize inst s₂ "equal_weight" := by
  intro inst
  refine ⟨?_, ?_, ?_⟩
  · intro i hi
    simp [PortfolioOptimizer.optimize_equal_weight, List.getD, hi]
  · intro h4
    simp [PortfolioOptimizer.optimize_equal_weight, h4]
  · intro s₁ s₂
    rfl

/-- C8 witness: the four-asset instance `inst4` instantiates all three
conjuncts of the equal-weight theorem. -/
theorem C8_equal_weight_closed_form_witness :
    (PortfolioOptimizer.optimize_equal_weight inst4).1.getD 2 0 =
      1 / (inst4.n_assets : ℚ) ∧
    (PortfolioOptimizer.optimize_equal_weight inst4).1 = [1/4, 1/4, 1/4, 1/4] :=
  ⟨(C8_equal_weight_closed_form inst4).1 2 (by decide),
   (C8_equal_weight_closed_form inst4).2.1 (by decide)⟩

/-- Rewriting `zipWith` as a `map` over `zip`, used to reason about the drift
vector. -/
theorem zipWith_eq_map_zip {α β γ : Type} (f : α → β → γ) :
    ∀ (l₁ : List α) (l₂ : List β),
      List.zipWith f l₁ l₂ = (List.zip l₁ l₂).map (fun p => f p.1 p.2)
  | [], _ => by simp
  | _ :: _, [] => by simp
  | a :: l₁, b :: l₂ => by
    simp [List.zip_cons_cons, zipWith_eq_map_zip f l₁ l₂]

/-- C7: `check_drift` reports `needsRebalancing = true` exactly when
some per-asset absolute drift exceeds the threshold (per asset, not in
aggregate); and concretely, current values `[50, 50]` against target
`[0.5, 0.5]` with threshold `0.05` give `false` with drift `[0, 0]`,
while `[80, 20]` give `true` with drift vector `[0.3, 0.3]` and maximum
drift `0.3`. -/
theorem C7_check_drift_per_asset_threshold :
    ∀ (c : PortfolioRebalancer.Config) (cw : List ℚ),
      ((PortfolioRebalancer.check_drift c cw).1 = true ↔
        ∃ p ∈ List.zip cw c.target_weights, |p.1 - p.2| > c.drift_threshold) ∧
      PortfolioRebalancer.calculate_current_weights [50, 50] = .ok [1/2, 1/2] ∧
      PortfolioRebalancer.check_drift ⟨[1/2, 1/2], 1/20⟩ [1/2, 1/2] = (false, [0, 0]) ∧
      PortfolioRebalancer.calculate_current_weights [80, 20] = .ok [4/5, 1/5] ∧
      PortfolioRebalancer.check_drift ⟨[1/2, 1/2], 1/20⟩ [4/5, 1/5] = (true, [3/10, 3/10]) ∧
      (PortfolioRebalancer.check_drift ⟨[1/2, 1/2], 1/20⟩ [4/5, 1/5]).2.maximum =
        some (3/10) := by
  intro c cw
  refine ⟨?_, by decide, by decide, by decide, by decide, by decide⟩
  have h : ∀ (l : List (ℚ × ℚ)) (t : ℚ),
      ((l.map (fun p => |p.1 - p.2|)).any (fun d => d > t) = true) ↔
        ∃ p ∈ l, |p.1 - p.2| > t := by
    intro l t
    induction l with
    | nil => simp
    | cons a l ih => simp [ih]
  have h2 : (PortfolioRebalancer.check_drift c cw).1 =
      ((cw.zip c.target_weights).map (fun p => |p.1 - p.2|)).any
        (fun d => d > c.drift_threshold) := by
    simp only [PortfolioRebalancer.check_drift, zipWith_eq_map_zip]
  rw [h2, h]

/-- C9: the dispatching `optimize` lower-cases the objective and
matches it against the five recognized names: it succeeds exactly on
that set, its result depends on the objective string only through its
lower-casing, and any other string raises
`ValueError("Unknown objective: ...")` instead of returning a default
allocation. -/
theorem C9_optimize_dispatch :
    ∀ (inst : PortfolioOptimizer.Instance) (solver : PortfolioOptimizer.Solver)
      (s : String),
      (isOkE (PortfolioOptimizer.optimize inst solver s) = true ↔
        pyLower s ∈ ["max_sharpe", "min_volatility", "max_return",
          "risk_parity", "equal_weight"]) ∧
      (∀ t : String, pyLower s = pyLower t →
        PortfolioOptimizer.optimize inst solver s =
          PortfolioOptimizer.optimize inst solver t) ∧
      (pyLower s ∉ ["max_sharpe", "min_volatility", "max_return",
          "risk_parity", "equal_weight"] →
        PortfolioOptimizer.optimize inst solver s =
          .error ("Unknown objective: " ++ pyLower s)) := by
  intro inst solver s
  refine ⟨?_, ?_, ?_⟩
  · simp only [PortfolioOptimizer.optimize]
    split_ifs with h1 h2 h3 h4 h5 <;> simp_all [isOkE]
  · intro t ht
    simp only [PortfolioOptimizer.optimize, ht]
  · intro hout
    simp only [PortfolioOptimizer.optimize]
    split_ifs with h1 h2 h3 h4 h5 <;> simp_all

/-- C9 witness: `"MAX_Sharpe"` dispatches exactly as `"max_sharpe"`
(case-insensitive matching), and the unrecognized `"foo"` yields the
`ValueError`-style error result. -/
theorem C9_optimize_dispatch_witness :
    PortfolioOptimizer.optimize inst1 (fun _ => ⟨[1], true⟩) "MAX_Sharpe" =
      PortfolioOptimizer.optimize inst1 (fun _ => ⟨[1], true⟩) "max_sharpe" ∧
    PortfolioOptimizer.optimize inst1 (fun _ => ⟨[1], true⟩) "foo" =
      .error ("Unknown objective: " ++ pyLower "foo") :=
  ⟨(C9_optimize_dispatch inst1 (fun _ => ⟨[1], true⟩) "MAX_Sharpe").2.1
      "max_sharpe" (by decide),
   (C9_optimize_dispatch inst1 (fun _ => ⟨[1], true⟩) "foo").2.2 (by decide)⟩

/-- C10: for every simulation, each path row starts at the initial
investment (`paths[sim][0] = initial_investment`) and ends at that
trial's final value (`paths[sim][years] = final_values[sim]`). -/
theorem C10_paths_consistent_with_finals :
    ∀ (c : MonteCarloSimulator.Config) (w : List ℝ) (init : ℝ)
      (years nsim : ℕ) (contrib : ℝ) (g : ℕ → ℕ → ℝ) (i : ℕ),
      1 ≤ years → i < nsim →
      (((MonteCarloSimulator.simulate_portfolio c w init years nsim contrib g).paths.getD
          i []).getD 0 0 = init) ∧
      (((MonteCarloSimulator.simulate_portfolio c w init years nsim contrib g).paths.getD
          i []).getD years 0 =
        (MonteCarloSimulator.simulate_portfolio c w init years nsim contrib
          g).final_values.getD i 0) := by
  intro c w init years nsim contrib g i hy hi
  simp only [MonteCarloSimulator.simulate_portfolio]
  have hrow : ((List.range nsim).map fun sim =>
      (List.range (years + 1)).map
        (MonteCarloSimulator.pathValue (MonteCarloSimulator.portfolio_return c w)
          (MonteCarloSimulator.portfolio_std c w) init contrib (g sim))).getD i [] =
      (List.range (years + 1)).map
        (MonteCarloSimulator.pathValue (MonteCarloSimulator.portfolio_return c w)
          (MonteCarloSimulator.portfolio_std c w) init contrib (g i)) := by
    rw [List.getD_eq_getElem?_getD]
    simp [List.getElem?_map, List.getElem?_range, hi]
  have hfin : ((List.range nsim).map fun sim =>
      MonteCarloSimulator.pathValue (MonteCarloSimulator.portfolio_return c w)
        (MonteCarloSimulator.portfolio_std c w) init contrib (g sim) years).getD i 0 =
      MonteCarloSimulator.pathValue (MonteCarloSimulator.portfolio_return c w)
        (MonteCarloSimulator.portfolio_std c w) init contrib (g i) years := by
    rw [List.getD_eq_getElem?_getD]
    simp [List.getElem?_map, List.getElem?_range, hi]
  rw [hrow, hfin]
  constructor
  · rw [List.getD_eq_getElem?_getD]
    simp [List.getElem?_map, List.getElem?_range, Nat.succ_pos]
    rfl
  · rw [List.getD_eq_getElem?_getD]
    simp [List.getElem?_map, List.getElem?_range, Nat.lt_succ_self]

/-- C10 witness: a concrete two-year, three-trial simulation whose
first path row starts at 500 and ends at its final value. -/
theorem C10_paths_consistent_with_finals_witness :
    (((MonteCarloSimulator.simulate_portfolio ⟨[1/10], [[1/25]]⟩ [1] 500 2 3 7
        (fun i j => (i : ℝ) * j)).paths.getD 0 []).getD 0 0 = 500) ∧
    (((MonteCarloSimulator.simulate_portfolio ⟨[1/10], [[1/25]]⟩ [1] 500 2 3 7
        (fun i j => (i : ℝ) * j)).paths.getD 0 []).getD 2 0 =
      (MonteCarloSimulator.simulate_portfolio ⟨[1/10], [[1/25]]⟩ [1] 500 2 3 7
        (fun i j => (i : ℝ) * j)).final_values.getD 0 0) :=
  C10_paths_consistent_with_finals ⟨[1/10], [[1/25]]⟩ [1] 500 2 3 7
    (fun i j => (i : ℝ) * j) 0 (by decide) (by decide)

/-- The interpolated percentile of a non-empty list never falls below
all of its elements: the lower interpolation endpoint `s[⌊pos⌋]` is a
member of the list and is `≤` the interpolated value. -/
theorem exists_mem_le_percentile (xs : List ℚ) (q : ℚ) (hne : xs ≠ [])
    (h0 : 0 ≤ q) (h1 : q ≤ 100) :
    ∃ x ∈ xs, x ≤ PortfolioMetrics.percentile xs q := by
  have hn : 0 < xs.length := List.length_pos.mpr hne
  set s := xs.insertionSort (· ≤ ·) with hsdef
  have hslen : s.length = xs.length := List.length_insertionSort _ _
  set pos := q / 100 * ((xs.length : ℚ) - 1) with hposdef
  have hpos0 : 0 ≤ pos := by
    apply mul_nonneg (div_nonneg h0 (by norm_num))
    have : (1 : ℚ) ≤ (xs.length : ℚ) := by exact_mod_cast hn
    linarith
  have hposle : pos ≤ (xs.length : ℚ) - 1 := by
    have hq : q / 100 ≤ 1 := (div_le_one (by norm_num)).mpr h1
    have hnn : (0 : ℚ) ≤ (xs.length : ℚ) - 1 := by
      have : (1 : ℚ) ≤ (xs.length : ℚ) := by exact_mod_cast hn
      linarith
    calc q / 100 * ((xs.length : ℚ) - 1)
        ≤ 1 * ((xs.length : ℚ) - 1) := mul_le_mul_of_nonneg_right hq hnn
      _ = (xs.length : ℚ) - 1 := one_mul _
  have hfl0 : 0 ≤ ⌊pos⌋ := Int.floor_nonneg.mpr hpos0
  set i := (⌊pos⌋).toNat with hidef
  have hilt : i < xs.length := by
    have hfl : ⌊pos⌋ ≤ (xs.length : ℤ) - 1 := by
      have h2 : ⌊pos⌋ ≤ ⌊(xs.length : ℚ) - 1⌋ := Int.floor_le_floor hposle
      have h3 : ⌊(xs.length : ℚ) - 1⌋ = (xs.length : ℤ) - 1 := by
        rw [show ((xs.length : ℚ) - 1) = (((xs.length : ℤ) - 1 : ℤ) : ℚ) by push_cast; ring]
        exact Int.floor_intCast _
      omega
    omega
  have hilen : i < s.length := by rw [hslen]; exact hilt
  have hfrac : 0 ≤ pos - (⌊pos⌋ : ℚ) := sub_nonneg.mpr (Int.floor_le pos)
  have hgd : s.getD i 0 = s.get ⟨i, hilen⟩ := by
    rw [List.getD_eq_getElem?_getD, List.getElem?_eq_getElem hilen]
    simp
  have hmem : s.get ⟨i, hilen⟩ ∈ xs := by
    have : s.get ⟨i, hilen⟩ ∈ s := s.get_mem _ _
    exact (List.mem_insertionSort _).mp this
  refine ⟨s.get ⟨i, hilen⟩, hmem, ?_⟩
  show s.get ⟨i, hilen⟩ ≤ PortfolioMetrics.percentile xs q
  have hsorted : List.Sorted (· ≤ ·) s := List.sorted_insertionSort _ _
  have hble : s.getD i 0 ≤ s.getD (i + 1) (s.getD i 0) := by
    by_cases hlt : i + 1 < s.length
    · have hgd2 : s.getD (i + 1) (s.getD i 0) = s.get ⟨i + 1, hlt⟩ := by
        rw [List.getD_eq_getElem?_getD, List.getElem?_eq_getElem hlt]
        simp
      rw [hgd2, hgd]
      exact hsorted.rel_get_of_lt (by simp)
    · have hb : s.getD (i + 1) (s.getD i 0) = s.getD i 0 := by
        rw [List.getD_eq_getElem?_getD, List.getElem?_eq_none (by omega)]
        rfl
      rw [hb]
  have hexp : PortfolioMetrics.percentile xs q =
      s.getD i 0 + (pos - (⌊pos⌋ : ℚ)) * (s.getD (i + 1) (s.getD i 0) - s.getD i 0) := by
    simp only [PortfolioMetrics.percentile]
  rw [hexp, ← hgd]
  nlinarith [mul_nonneg hfrac (sub_nonneg.mpr hble)]

/-- The mean of a non-empty list all of whose elements are `≤ v` is
itself `≤ v`. -/
theorem meanQ_le_of_forall_le (xs : List ℚ) (v : ℚ) (hne : xs ≠ [])
    (h : ∀ x ∈ xs, x ≤ v) : meanQ xs ≤ v := by
  have hlen : 0 < (xs.length : ℚ) := by
    exact_mod_cast List.length_pos.mpr hne
  have hsum : xs.sum ≤ (xs.length : ℚ) * v := by
    have := List.sum_le_card_nsmul xs v h
    simpa [nsmul_eq_mul] using this
  rw [meanQ, div_le_iff₀ hlen]
  linarith

/-- C5: `conditional_value_at_risk` is the mean of exactly the realized
weighted returns that are `≤` the `value_at_risk` threshold at the same
confidence level, and that tail mean is `≤` the VaR itself. -/
theorem C5_cvar_tail_mean_le_var (w : List ℚ) (returns : List (List ℚ)) (conf : ℚ)
    (hne : returns ≠ []) (h0 : 0 ≤ conf) (h1 : conf ≤ 1) :
    PortfolioMetrics.conditional_value_at_risk w returns conf =
      meanQ ((PortfolioMetrics.calculate_portfolio_returns w returns).filter
        (fun x => x ≤ PortfolioMetrics.value_at_risk w returns conf)) ∧
    PortfolioMetrics.conditional_value_at_risk w returns conf ≤
      PortfolioMetrics.value_at_risk w returns conf := by
  refine ⟨rfl, ?_⟩
  have hprne : PortfolioMetrics.calculate_portfolio_returns w returns ≠ [] := by
    simp [PortfolioMetrics.calculate_portfolio_returns, hne]
  have hq0 : 0 ≤ (1 - conf) * 100 := by nlinarith
  have hq1 : (1 - conf) * 100 ≤ 100 := by nlinarith
  obtain ⟨x0, hx0mem, hx0le⟩ :=
    exists_mem_le_percentile (PortfolioMetrics.calculate_portfolio_returns w returns)
      ((1 - conf) * 100) hprne hq0 hq1
  have htmem : x0 ∈ (PortfolioMetrics.calculate_portfolio_returns w returns).filter
      (fun x => x ≤ PortfolioMetrics.value_at_risk w returns conf) :=
    List.mem_filter.mpr ⟨hx0mem, by simpa [PortfolioMetrics.value_at_risk] using hx0le⟩
  have htailne : (PortfolioMetrics.calculate_portfolio_returns w returns).filter
      (fun x => x ≤ PortfolioMetrics.value_at_risk w returns conf) ≠ [] :=
    List.ne_nil_of_mem htmem
  have hall : ∀ x ∈ (PortfolioMetrics.calculate_portfolio_returns w returns).filter
      (fun x => x ≤ PortfolioMetrics.value_at_risk w returns conf),
      x ≤ PortfolioMetrics.value_at_risk w returns conf := by
    intro x hx
    simpa using (List.mem_filter.mp hx).2
  exact meanQ_le_of_forall_le _ _ htailne hall

/-- C3 counterexample: on the 100-period series with distinct weighted
returns 1, …, 100 and weights `[1]`, `value_at_risk` at 95% confidence
is `5.95` — the linear interpolation between the 5th- and 6th-smallest
returns — and not the 5th-smallest return (which is `5`), refuting the
order-statistic reading of the claim. -/
theorem C3_counterexample_var_not_order_statistic :
    PortfolioMetrics.value_at_risk [1] uniformSeries (95/100) ≠
      (sortedPortfolioReturns [1] uniformSeries).getD 4 0 := by
  decide

/-- C3 (amended): for every weight vector and every return series of
exactly 100 periods, `value_at_risk` at 95% confidence equals the
numpy linear interpolation `s[4] + 0.95 * (s[5] - s[4])` between the
5th- and 6th-smallest realized weighted returns (so it equals the
5th-smallest order statistic only when the two coincide). -/
theorem C3_var_linear_interpolation (w : List ℚ) (returns : List (List ℚ))
    (h : returns.length = 100) :
    PortfolioMetrics.value_at_risk w returns (95/100) =
      (sortedPortfolioReturns w returns).getD 4 0 +
        (19/20) * ((sortedPortfolioReturns w returns).getD 5 0 -
          (sortedPortfolioReturns w returns).getD 4 0) := by
  have hpr : (PortfolioMetrics.calculate_portfolio_returns w returns).length = 100 := by
    simp [PortfolioMetrics.calculate_portfolio_returns, h]
  have hs : (sortedPortfolioReturns w returns).length = 100 := by
    simp [sortedPortfolioReturns, List.length_insertionSort, hpr]
  have hq : ((1 - 95/100 : ℚ) * 100) / 100 * ((100 : ℕ) - 1 : ℚ) = 99/20 := by
    norm_num
  have hfl : ⌊(99/20 : ℚ)⌋ = 4 := by decide
  have hfrac : (99/20 : ℚ) - ((4 : ℤ) : ℚ) = 19/20 := by norm_num
  have h5lt : 5 < (sortedPortfolioReturns w returns).length := by rw [hs]; norm_num
  have h5 : (sortedPortfolioReturns w returns).getD 5
      ((sortedPortfolioReturns w returns).getD 4 0) =
      (sortedPortfolioReturns w returns).getD 5 0 := by
    rw [List.getD_eq_getElem?_getD, List.getD_eq_getElem?_getD,
      List.getElem?_eq_getElem h5lt]
    simp [List.getD_eq_getElem?_getD, List.getElem?_eq_getElem h5lt]
  simp only [sortedPortfolioReturns] at h5
  simp only [PortfolioMetrics.value_at_risk, PortfolioMetrics.percentile, hpr,
    sortedPortfolioReturns]
  rw [show ((100 : ℕ) : ℚ) - 1 = ((100 : ℕ) - 1 : ℚ) by norm_num, hq, hfl, hfrac]
  rw [show Int.toNat 4 = 4 by rfl]
  rw [show 4 + 1 = 5 by rfl]
  rw [h5]

/-- C3 witness: the amended interpolation formula instantiated on the
concrete 100-period series. -/
theorem C3_var_linear_interpolation_witness :
    uniformSeries.length = 100 ∧
    PortfolioMetrics.value_at_risk [1] uniformSeries (95/100) =
      (sortedPortfolioReturns [1] uniformSeries).getD 4 0 +
        (19/20) * ((sortedPortfolioReturns [1] uniformSeries).getD 5 0 -
          (sortedPortfolioReturns [1] uniformSeries).getD 4 0) :=
  ⟨by decide, C3_var_linear_interpolation [1] uniformSeries (by decide)⟩

/-- C5 witness: a concrete three-period series at 95% confidence. -/
theorem C5_cvar_tail_mean_le_var_witness :
    ([[(0 : ℚ)], [1], [2]] : List (List ℚ)) ≠ [] ∧
    PortfolioMetrics.conditional_value_at_risk [1] [[0], [1], [2]] (95/100) ≤
      PortfolioMetrics.value_at_risk [1] [[0], [1], [2]] (95/100) :=
  ⟨by decide,
   (C5_cvar_tail_mean_le_var [1] [[0], [1], [2]] (95/100) (by decide) (by decide)
      (by decide)).2⟩

end PortfolioOpt

